import Mathlib

/-!  Verification of the flopy unstructured-grid engine (`unstructuredgrid.py`).

The Python class `UnstructuredGrid` is embedded shallowly: numpy arrays and
Python lists become Lean `List`s, floats become exact rationals `ℚ`,
`None`-able attributes become `Option`s, and code that can raise returns
`Except String`.  Python dicts (which preserve insertion order) are embedded
as association lists with update-in-place semantics.  External collaborators
that are not part of the excerpt (the base `Grid` class, the helpers in
`flopy.utils.geometry`, matplotlib's `Path`) are modelled from the
specification where the doc comment says so.  -/

namespace Flopy

/-- Python dict assignment `d[k] = v`: updates the value in place if the key
is present (keeping its position), otherwise appends the new binding. -/
def pyUpd {α β : Type} [DecidableEq α] : List (α × β) → α → β → List (α × β)
  | [], k, v => [(k, v)]
  | (k', v') :: rest, k, v =>
      if k' = k then (k', v) :: rest else (k', v') :: pyUpd rest k v

/-- Python dict lookup `d[k]`; keys are unique in a dict, so the first match
is the binding. -/
def pyGet {α β : Type} [DecidableEq α] : List (α × β) → α → Option β
  | [], _ => none
  | (k', v') :: rest, k => if k' = k then some v' else pyGet rest k

/-- Python list slice `l[a:b]` for non-negative bounds. -/
def pySlice {α : Type} (l : List α) (a b : ℕ) : List α := (l.drop a).take (b - a)

/-- Python `set.add` on an id set, embedded as an insertion-ordered
duplicate-free list (the iteration order of a Python set is unspecified; the
code below only iterates sets that are singletons unless two vertex records
share coordinates). -/
def setAdd (s : List ℤ) (v : ℤ) : List ℤ := if v ∈ s then s else s ++ [v]

/-- Map a fallible function over a list, stopping at the first raise (the
semantics of a Python list comprehension whose body can raise). -/
def mapE {α β : Type} (f : α → Except String β) : List α → Except String (List β)
  | [] => .ok []
  | a :: as =>
      match f a with
      | .error e => .error e
      | .ok b =>
          match mapE f as with
          | .error e => .error e
          | .ok bs => .ok (b :: bs)

/-- Map a partial function over a list, `none` as soon as one element is
unmapped (a list comprehension whose body can raise KeyError). -/
def mapO {α β : Type} (f : α → Option β) : List α → Option (List β)
  | [] => some []
  | a :: as =>
      match f a with
      | none => none
      | some b =>
          match mapO f as with
          | none => none
          | some bs => some (b :: bs)

/-- The cyclic successor pairs of a list: `[(v0,v1),(v1,v2),...,(vlast,v0)]`. -/
def cyclicPairs {α : Type} : List α → List (α × α)
  | [] => []
  | x :: xs => (x :: xs).zip (xs ++ [x])

/-- A numpy floating-point scalar: a finite (exact) value, infinity, or nan.
Under numpy's default error state, dividing by zero or taking `x % 0` emits a
RuntimeWarning and produces `inf`/`nan` instead of raising. -/
inductive NpF : Type where
  | val : ℚ → NpF
  | inf : NpF
  | nan : NpF
deriving DecidableEq

/-- numpy true division of two non-negative integer scalars. -/
def npDiv (a b : ℕ) : NpF :=
  if b = 0 then (if a = 0 then .nan else .inf) else .val ((a : ℚ) / (b : ℚ))

/-- numpy `x % d`: nan when the divisor is the literal zero (with a warning,
not an exception), ordinary remainder otherwise. -/
def npMod (x : NpF) (d : ℚ) : NpF :=
  if d = 0 then .nan else
    match x with
    | .val q => .val (q - d * ⌊q / d⌋)
    | _ => .nan

/-- numpy integer `a % b`: numpy yields 0 (with a warning) for `b = 0`. -/
def npModNat (a b : ℕ) : ℕ := if b = 0 then 0 else a % b

/-- Python truthiness of a numpy scalar: `bool(nan)` and `bool(inf)` are
`True`; a finite value is truthy iff nonzero. -/
def npTruthy : NpF → Bool
  | .val q => decide (q ≠ 0)
  | .inf => true
  | .nan => true

deriving instance DecidableEq for Except

/-- A vertex record `[iv, xv, yv]`. -/
abbrev VertRec : Type := ℤ × ℚ × ℚ

/-- A `cell2d` constructor row `[icell2d, xc, yc, nv, iv1, iv2, ...]`:
`list(t)[4:]` is the vertex-id tail. -/
structure C2DRow : Type where
  icell : ℤ
  xc : ℚ
  yc : ℚ
  nv : ℕ
  verts : List (Option ℤ)
deriving DecidableEq

/-- The attribute state of an `UnstructuredGrid` instance.  The simulation
metadata arguments of `__init__` (`nodes`, `nlay`, `njag`, `nper`, ...) are
stored by the constructor but never read by any of the operations verified
here, so they are omitted; `crs`, `prjfile`, `idomain` and `lenuni` are
carried as opaque tokens. -/
structure UnstructuredGrid : Type where
  _vertices : Option (List VertRec)
  _iverts : Option (List (List (Option ℤ)))
  _xc : Option (List ℚ)
  _yc : Option (List ℚ)
  _top : Option (List ℚ)
  _botm : Option (List ℚ)
  _ncpl : Option (List ℕ)
  _idomain : Option ℤ
  _lenuni : Option ℤ
  _crs : Option ℤ
  _prjfile : Option ℤ
  _xoff : ℚ
  _yoff : ℚ
  _angrot : ℚ
  _iac : Option (List ℕ)
  _ja : Option (List ℤ)
deriving DecidableEq

namespace UnstructuredGrid

/-- `is_valid` (unstructuredgrid.py:243-254): all of `_iverts`, `_vertices`,
`_xc`, `_yc` are present. -/
def is_valid (m : UnstructuredGrid) : Bool :=
  m._iverts.isSome && m._vertices.isSome && m._xc.isSome && m._yc.isSome

/-- Modelled from the spec: the base class `Grid` (not part of the excerpt)
provides the inherited `is_complete`; per the spec a mesh is complete iff it
is valid and the top and bottom elevation arrays are present, validity being
dispatched to the subclass `is_valid`. -/
def grid_base_is_complete (m : UnstructuredGrid) : Bool :=
  m.is_valid && m._top.isSome && m._botm.isSome

/-- The value tested by `self.is_valid is not None` in `is_complete`
(unstructuredgrid.py:258): the property returns a `bool`, never `None`. -/
def is_valid_opt (m : UnstructuredGrid) : Option Bool := some m.is_valid

/-- `is_complete` (unstructuredgrid.py:256-260). -/
def is_complete (m : UnstructuredGrid) : Bool :=
  if m.is_valid_opt.isSome && m.grid_base_is_complete then true else false

/-- property `ncpl` (unstructuredgrid.py:420-422). -/
def ncpl (m : UnstructuredGrid) : Option (List ℕ) := m._ncpl

/-- property `nlay` (unstructuredgrid.py:267-272): `self.ncpl.shape[0]`, or
`None` when `ncpl` is unset. -/
def nlay (m : UnstructuredGrid) : Option ℕ := m.ncpl.map List.length

/-- property `nnodes` (unstructuredgrid.py:288-293): `self.ncpl.sum()`, or
`None` when `ncpl` is unset. -/
def nnodes (m : UnstructuredGrid) : Option ℕ := m.ncpl.map List.sum

/-- property `iverts` (unstructuredgrid.py:324-329): the per-cell vertex-id
lists with `None` entries dropped. -/
def iverts (m : UnstructuredGrid) : Option (List (List ℤ)) :=
  m._iverts.map (List.map (fun t => t.filterMap id))

/-- property `grid_varies_by_layer` (unstructuredgrid.py:278-286).
`self.ncpl[0]` raises TypeError when `ncpl` is `None` and IndexError when it
is empty; an invalid grid short-circuits to `False` without touching `ncpl`. -/
def grid_varies_by_layer (m : UnstructuredGrid) : Except String Bool :=
  match m._iverts, m._vertices, m._xc, m._yc with
  | some ivs, some _, some _, some _ =>
      match m._ncpl with
      | none => .error "TypeError: NoneType is not subscriptable"
      | some [] => .error "IndexError: index 0 is out of bounds"
      | some (c :: _) => .ok (decide (c ≠ ivs.length))
  | _, _, _, _ => .ok false

/-- `set_ncpl` (unstructuredgrid.py:232-241): an `int` is normalized to a
one-element array; the argument type covers exactly the accepted `int` and
1-d sequence shapes, so the TypeError/ndim branches are unreachable here.
The cache-invalidation side effect is a no-op in this pure embedding (the
cache holds derived data only). -/
def set_ncpl (m : UnstructuredGrid) (v : ℕ ⊕ List ℕ) : UnstructuredGrid :=
  { m with _ncpl := some (match v with | .inl n => [n] | .inr l => l) }

/-- The keyword arguments of `__init__` (unstructuredgrid.py:117-156), with
the Python defaults. -/
structure InitArgs : Type where
  vertices : Option (List VertRec) := none
  iverts : Option (List (List (Option ℤ))) := none
  xcenters : Option (List ℚ) := none
  ycenters : Option (List ℚ) := none
  top : Option (List ℚ) := none
  botm : Option (List ℚ) := none
  idomain : Option ℤ := none
  lenuni : Option ℤ := none
  ncpl : Option (ℕ ⊕ List ℕ) := none
  crs : Option ℤ := none
  prjfile : Option ℤ := none
  xoff : ℚ := 0
  yoff : ℚ := 0
  angrot : ℚ := 0
  iac : Option (List ℕ) := none
  ja : Option (List ℤ) := none
  cell2d : Option (List C2DRow) := none

/-- `__init__`, cell2d preprocessing (unstructuredgrid.py:170-174): with a
combined `cell2d` table the centers and iverts are derived from its rows. -/
def init_iverts0 (a : InitArgs) : Option (List (List (Option ℤ))) :=
  match a.cell2d with
  | some rows => some (rows.map C2DRow.verts)
  | none => a.iverts

/-- `__init__` cell2d preprocessing: the effective `xcenters` argument. -/
def init_xc (a : InitArgs) : Option (List ℚ) :=
  match a.cell2d with
  | some rows => some (rows.map C2DRow.xc)
  | none => a.xcenters

/-- `__init__` cell2d preprocessing: the effective `ycenters` argument. -/
def init_yc (a : InitArgs) : Option (List ℚ) :=
  match a.cell2d with
  | some rows => some (rows.map C2DRow.yc)
  | none => a.ycenters

/-- `__init__`, attribute assignment (unstructuredgrid.py:176-186): the
instance state before `ncpl` handling. -/
def init_m0 (a : InitArgs) : UnstructuredGrid :=
  { _vertices := a.vertices, _iverts := init_iverts0 a, _xc := init_xc a,
    _yc := init_yc a, _top := a.top, _botm := a.botm, _ncpl := none,
    _idomain := a.idomain, _lenuni := a.lenuni, _crs := a.crs,
    _prjfile := a.prjfile, _xoff := a.xoff, _yoff := a.yoff,
    _angrot := a.angrot, _iac := a.iac, _ja := a.ja }

/-- `__init__`, ncpl handling (unstructuredgrid.py:186-194): a supplied
`ncpl` is normalized via `set_ncpl`; otherwise a valid grid defaults it to
`[len(iverts)]`. -/
def init_m1 (a : InitArgs) : UnstructuredGrid :=
  match a.ncpl with
  | some v => (init_m0 a).set_ncpl v
  | none =>
      match init_iverts0 a with
      | some ivs =>
          if (init_m0 a).is_valid then (init_m0 a).set_ncpl (.inl ivs.length)
          else init_m0 a
      | none => init_m0 a

/-- `__init__` (unstructuredgrid.py:117-230): cell2d preprocessing, attribute
assignment, ncpl defaulting, then the iverts-length assertions
(unstructuredgrid.py:196-205). -/
def init (a : InitArgs) : Except String UnstructuredGrid :=
  match init_iverts0 a with
  | none => .ok (init_m1 a)
  | some ivs =>
      match (init_m1 a).grid_varies_by_layer with
      | .error e => .error e
      | .ok true =>
          if (init_m1 a).nnodes = some ivs.length then .ok (init_m1 a)
          else .error "AssertionError: Length of iverts must equal grid nodes"
      | .ok false =>
          match (init_m1 a)._ncpl with
          | none => .error "TypeError: NoneType is not iterable"
          | some l =>
              if l.all (fun cpl => cpl = ivs.length) then .ok (init_m1 a)
              else .error "AssertionError: Length of iverts must equal ncpl"
end UnstructuredGrid

/-- The coordinate transform service `flopy.utils.geometry.transform`, which
the spec treats as an opaque external collaborator: it maps one local
coordinate pair to world coordinates given the grid offsets and rotation. -/
abbrev Transform : Type := ℚ → ℚ → ℚ → ℚ → ℚ → ℚ × ℚ

/-- Modelled from the spec: `is_clockwise` (flopy.utils.geometry, not part of
the excerpt) determines polygon winding; the shoelace edge sum (closing edge
included) is positive exactly for a clockwise ring. -/
def is_clockwise (xa ya : List ℚ) : Bool :=
  decide (0 < (cyclicPairs (xa.zip ya)).foldl
    (fun s e => s + (e.2.1 - e.1.1) * (e.2.2 + e.1.2)) 0)

/-- Squared distance from point `p` to the segment `a`-`b`, in exact rational
arithmetic (for a degenerate segment the rational convention `q / 0 = 0`
makes this the distance to `a`). -/
def distSqToSeg (p a b : ℚ × ℚ) : ℚ :=
  let dx := b.1 - a.1
  let dy := b.2 - a.2
  let len2 := dx * dx + dy * dy
  let t := max 0 (min 1 (((p.1 - a.1) * dx + (p.2 - a.2) * dy) / len2))
  (p.1 - (a.1 + t * dx)) ^ 2 + (p.2 - (a.2 + t * dy)) ^ 2

/-- Even-odd ray-crossing parity of a point with respect to a polygon. -/
def crossings (poly : List (ℚ × ℚ)) (p : ℚ × ℚ) : Bool :=
  (cyclicPairs poly).foldl
    (fun acc e =>
      if (decide (e.1.2 > p.2) ≠ decide (e.2.2 > p.2)) ∧
          p.1 < e.1.1 + (e.2.1 - e.1.1) * (p.2 - e.1.2) / (e.2.2 - e.1.2)
      then !acc else acc)
    false

/-- Modelled from the spec: matplotlib's `Path.contains_point` with a small
signed radius is an edge-tolerant point-in-polygon test — the point is inside
the polygon, or within `|radius|` of its boundary, so that boundary points
are included rather than excluded by floating-point error. -/
def contains_point (poly : List (ℚ × ℚ)) (p : ℚ × ℚ) (radius : ℚ) : Bool :=
  crossings poly p ||
    (cyclicPairs poly).any (fun e => decide (distSqToSeg p e.1 e.2 ≤ radius * radius))

/-- The per-cell test of the `intersect` scan (unstructuredgrid.py:886-901):
the bounding-box prefilter on the cell's vertex arrays, then the
winding-based edge-tolerant containment test with radius `-1e-9` for a
clockwise ring and `+1e-9` otherwise. -/
def cell_hit (xa ya : List ℚ) (x y : ℚ) : Bool :=
  xa.any (fun a => decide (x ≤ a)) && xa.any (fun a => decide (a ≤ x)) &&
  ya.any (fun a => decide (y ≤ a)) && ya.any (fun a => decide (a ≤ y)) &&
  contains_point (xa.zip ya) (x, y)
    (if is_clockwise xa ya then -(1 / 1000000000) else 1 / 1000000000)

/-- The value returned by `intersect`: a CELL2D number or the `np.nan`
sentinel. -/
inductive IntersectResult : Type where
  | cell : ℕ → IntersectResult
  | nan : IntersectResult
deriving DecidableEq

namespace UnstructuredGrid

/-- Modelled from the spec: base-class `get_coords` passes a point through
the opaque transform service together with the grid offsets and rotation. -/
def get_coords (tr : Transform) (m : UnstructuredGrid) (x y : ℚ) : ℚ × ℚ :=
  tr x y m._xoff m._yoff m._angrot

/-- Modelled from the spec: base-class `_has_ref_coordinates` is true iff the
grid carries a reference-frame offset or rotation. -/
def has_ref_coordinates (m : UnstructuredGrid) : Bool :=
  decide (m._xoff ≠ 0) || decide (m._yoff ≠ 0) || decide (m._angrot ≠ 0)

/-- One binding step of the vertex id → coordinate dict comprehension of
`_build_grid_geometry_info` (unstructuredgrid.py:962). -/
def vdictStep (d : List (ℤ × (ℚ × ℚ))) (r : VertRec) : List (ℤ × (ℚ × ℚ)) :=
  pyUpd d r.1 (r.2.1, r.2.2)

/-- The vertex id → coordinate dict built by `_build_grid_geometry_info`
(unstructuredgrid.py:962): a dict comprehension, so for duplicate ids the
last record wins. -/
def vertexdict (recs : List VertRec) : List (ℤ × (ℚ × ℚ)) :=
  recs.foldl vdictStep []

/-- Resolve one cell's vertex-id list to its coordinate sequence
(unstructuredgrid.py:969-977); `vertexdict[ix]` raises KeyError when an id is
absent. -/
def resolve_cell (vdict : List (ℤ × (ℚ × ℚ))) (cell : List ℤ) :
    Except String (List (ℚ × ℚ)) :=
  mapE (fun ix => match pyGet vdict ix with
    | some p => .ok p
    | none => .error "KeyError: vertex id not found") cell

/-- The per-cell x/y coordinate lists of `_build_grid_geometry_info` before
the optional world transform (unstructuredgrid.py:962-977). -/
def cell_xyvertices (m : UnstructuredGrid) : Except String (List (List (ℚ × ℚ))) :=
  match m._vertices, m.iverts with
  | some recs, some ivs => mapE (resolve_cell (vertexdict recs)) ivs
  | none, _ => .error "TypeError: NoneType (vertices) is not iterable"
  | _, none => .error "TypeError: NoneType (iverts) is not iterable"

/-- The x/y part of the `xyzvertices` cache entry
(unstructuredgrid.py:958-1001): resolved cell coordinates, passed pointwise
through the transform service when reference coordinates are set.  The cache
itself is transparent here: it memoizes exactly this pure recomputation. -/
def xyvertices (tr : Transform) (m : UnstructuredGrid) :
    Except String (List (List ℚ) × List (List ℚ)) :=
  match cell_xyvertices m with
  | .error e => .error e
  | .ok cells =>
      let cells := if m.has_ref_coordinates
        then cells.map (List.map (fun p => m.get_coords tr p.1 p.2))
        else cells
      .ok (cells.map (List.map Prod.fst), cells.map (List.map Prod.snd))

/-- Modelled from the spec: base-class `_zcoords` derives the z-vertex bundle
from the elevation arrays; `intersect` reads `zv[0, n]` as the cell top and
`zv[1, n]` as the cell bottom, so the bundle is the (top, botm) pair, present
only when both arrays are. -/
def zcoords (m : UnstructuredGrid) : Option (List ℚ × List ℚ) :=
  match m._top, m._botm with
  | some t, some b => some (t, b)
  | _, _ => none

/-- The candidate count for the `intersect` scan
(unstructuredgrid.py:880-883): all nodes when the grid varies by layer,
otherwise the first layer's cell count. -/
def intersect_ncpl (m : UnstructuredGrid) : Except String ℕ :=
  match m.grid_varies_by_layer with
  | .error e => .error e
  | .ok true =>
      match m.nnodes with
      | some n => .ok n
      | none => .error "TypeError: NoneType is not iterable"
  | .ok false =>
      match m._ncpl with
      | none => .error "TypeError: NoneType is not subscriptable"
      | some [] => .error "IndexError: index 0 is out of bounds"
      | some (c :: _) => .ok c

/-- The layer walk of `intersect` for a supplied `z`
(unstructuredgrid.py:905-909): walk layers top down, offsetting the cell
number by the prior layer's count for a non-varying grid, and return the
first layer whose top/bottom bracket `z`.  The `lay - 1` index into `ncpl`
is always in range because `lay` ranges over `range(nlay)`. -/
def intersect_zwalk (ncpll : List ℕ) (zv : Option (List ℚ × List ℚ))
    (gvbl : Bool) (z : ℚ) : List ℕ → ℕ → Except String (Option ℕ)
  | [], _ => .ok none
  | lay :: rest, icell =>
      let icell := if decide (lay ≠ 0) && !gvbl then icell + ncpll.getD (lay - 1) 0
                   else icell
      match zv with
      | none => .error "TypeError: NoneType is not subscriptable"
      | some (t, b) =>
          match t[icell]?, b[icell]? with
          | some ti, some bi =>
              if ti ≥ z ∧ z ≥ bi then .ok (some icell)
              else intersect_zwalk ncpll zv gvbl z rest icell
          | _, _ => .error "IndexError: index out of bounds"

/-- The action of the `intersect` scan on a cell that passes the per-cell
test (unstructuredgrid.py:901-909): with `z` omitted the cell number is
returned at once; with `z` the layer walk runs (`range(self.nlay)` raises
TypeError when `ncpl` is unset). -/
def intersect_zcheck (m : UnstructuredGrid) (zv : Option (List ℚ × List ℚ))
    (z : Option ℚ) (i : ℕ) : Except String (Option ℕ) :=
  match z with
  | none => .ok (some i)
  | some zq =>
      match m.grid_varies_by_layer, m.nlay with
      | .error e, _ => .error e
      | .ok _, none => .error "TypeError: NoneType is not iterable"
      | .ok gvbl, some nl =>
          intersect_zwalk (m._ncpl.getD []) zv gvbl zq (List.range nl) i

/-- The scan loop of `intersect` over the candidate cell numbers
(unstructuredgrid.py:885-909): the first cell passing `cell_hit` is returned
when `z` is omitted; with `z` the layer walk runs and the scan continues when
it finds no bracketing layer. -/
def intersect_scan (m : UnstructuredGrid) (xvl yvl : List (List ℚ))
    (zv : Option (List ℚ × List ℚ)) (x y : ℚ) (z : Option ℚ) :
    List ℕ → Except String (Option ℕ)
  | [] => .ok none
  | i :: rest =>
      match xvl[i]?, yvl[i]? with
      | some xa, some ya =>
          if cell_hit xa ya x y then
            match intersect_zcheck m zv z i with
            | .error e => .error e
            | .ok (some j) => .ok (some j)
            | .ok none => intersect_scan m xvl yvl zv x y z rest
          else intersect_scan m xvl yvl zv x y z rest
      | _, _ => .error "IndexError: list index out of range"

/-- `intersect` (unstructuredgrid.py:848-915). -/
def intersect (tr : Transform) (m : UnstructuredGrid) (x y : ℚ) (z : Option ℚ)
    (lcl forgive : Bool) : Except String IntersectResult :=
  let xy := if lcl then m.get_coords tr x y else (x, y)
  match m.xyvertices tr with
  | .error e => .error e
  | .ok (xvl, yvl) =>
      match m.intersect_ncpl with
      | .error e => .error e
      | .ok n =>
          match intersect_scan m xvl yvl m.zcoords xy.1 xy.2 z (List.range n) with
          | .error e => .error e
          | .ok (some i) => .ok (.cell i)
          | .ok none =>
              if forgive then .ok .nan
              else .error "point given is outside of the model area"

/-- The `is_layered` guard of `cell2d` (unstructuredgrid.py:302-305) together
with its evaluation trace: the pair is (`is_layered`, whether the `% 0`
expression was evaluated).  Python's `and` short-circuits, and under numpy
`ncenters / self.nnodes % 0` warns and yields nan, which is truthy. -/
def cell2d_guard (ncenters nn : ℕ) : Bool × Bool :=
  if ncenters = nn then (false, false)
  else (npTruthy (npMod (npDiv ncenters nn) 0), true)

/-- One `cell2d` record `[node, xc, yc, nverts, iv...]` (the vertex-id tail
is the raw `_iverts` row, `None` entries included). -/
abbrev Cell2DRec : Type := ℕ × ℚ × ℚ × ℕ × List (Option ℤ)

/-- The record-building loop of `cell2d` (unstructuredgrid.py:307-321).
`self.ncpl[0]` is read only on the layered path (IndexError when `ncpl` is
empty); `ix - ix_adj` never goes negative because `ix_adj` accumulates whole
multiples of `ncpl[0]` that are at most `ix`. -/
def cell2d_go (ivs : List (List (Option ℤ))) (xc yc : List ℚ)
    (ncpl0 : Option ℕ) (is_layered : Bool) :
    List ℕ → ℕ → Except String (List Cell2DRec)
  | [], _ => .ok []
  | ix :: rest, ix_adj =>
      let step : Except String ℕ :=
        if is_layered then
          match ncpl0 with
          | none => .error "IndexError: index 0 is out of bounds"
          | some c0 =>
              if npModNat ix c0 = 0 ∧ ix ≠ 0 then .ok (ix_adj + c0) else .ok ix_adj
        else .ok ix_adj
      match step with
      | .error e => .error e
      | .ok adj =>
          match ivs[ix - adj]?, xc[ix - adj]?, yc[ix - adj]? with
          | some row, some xci, some yci =>
              match cell2d_go ivs xc yc ncpl0 is_layered rest adj with
              | .error e => .error e
              | .ok recs => .ok ((ix, xci, yci, row.length, row) :: recs)
          | _, _, _ => .error "IndexError: list index out of range"

/-- `cell2d` property (unstructuredgrid.py:299-322): `None` for an invalid
grid (the property falls off the end), otherwise the record list or the
error raised mid-computation.  With `ncpl` unset, `ncenters != None` is
`True` and `ncenters / None` raises TypeError. -/
def cell2d (m : UnstructuredGrid) : Option (Except String (List Cell2DRec)) :=
  match m._iverts, m._vertices, m._xc, m._yc with
  | some ivs, some _, some xc, some yc =>
      some (match m.nnodes with
        | none => .error "TypeError: unsupported operand type for /"
        | some nn =>
            cell2d_go ivs xc yc ((m._ncpl.getD []).head?)
              (cell2d_guard xc.length nn).1 (List.range nn) 0)
  | _, _, _, _ => none

/-- Whether reading `cell2d` evaluates the modulo-by-zero expression in the
layering guard (`none` when the guard itself is not reached: invalid grid or
`ncpl` unset). -/
def cell2d_mod_evaluated (m : UnstructuredGrid) : Option Bool :=
  match m._iverts, m._vertices, m._xc, m._yc, m.nnodes with
  | some _, some _, some xc, some _, some nn =>
      some (cell2d_guard xc.length nn).2
  | _, _, _, _, _ => none

/-- The node → neighbor-list dict of `neighbors(method="iac")`
(unstructuredgrid.py:740-747): for each node the slice
`list(self._ja[idx0 + 1 : idx1])` with `idx1 = idx0 + ia` — the source
initializes `idx0 = 0` and never advances it inside the loop. -/
def neighbors_iac_dict (iac : List ℕ) (ja : List ℤ) : List (ℕ × List ℤ) :=
  iac.enum.map (fun e => (e.1, pySlice ja (0 + 1) (0 + e.2)))

/-- `neighbors(node=n, method="iac")` (unstructuredgrid.py:716-751): a lookup
of `n` in the lazily built dict (`none` embeds the KeyError for a node
outside it). -/
def neighbors_iac (iac : List ℕ) (ja : List ℤ) (node : ℕ) : Option (List ℤ) :=
  pyGet (neighbors_iac_dict iac ja) node

/-- The base-class accessor properties used by `convert_grid` and
`clean_iverts` (modelled from the spec's data model: plain reads of the
stored attributes). -/
def top (m : UnstructuredGrid) : Option (List ℚ) := m._top

/-- base-class property `botm`. -/
def botm (m : UnstructuredGrid) : Option (List ℚ) := m._botm

/-- base-class property `xoffset`. -/
def xoffset (m : UnstructuredGrid) : ℚ := m._xoff

/-- base-class property `yoffset`. -/
def yoffset (m : UnstructuredGrid) : ℚ := m._yoff

/-- base-class property `angrot`. -/
def angrot (m : UnstructuredGrid) : ℚ := m._angrot

/-- `convert_grid` (unstructuredgrid.py:755-786): on a complete grid, build a
new grid with every vertex coordinate, cell center, elevation and offset
multiplied by `factor` (note: `ncpl`, `lenuni`, `crs`, `prjfile`, `iac`, `ja`
are *not* passed on); otherwise raise.  Completeness implies validity, so the
array-presence matches cannot fail. -/
def convert_grid (m : UnstructuredGrid) (factor : ℚ) :
    Except String UnstructuredGrid :=
  if m.is_complete then
    match m._vertices, m._xc, m._yc, m.top, m.botm with
    | some vs, some xc, some yc, some t, some b =>
        init { vertices := some (vs.map (fun r => (r.1, r.2.1 * factor, r.2.2 * factor))),
               iverts := m._iverts,
               xcenters := some (xc.map (· * factor)),
               ycenters := some (yc.map (· * factor)),
               top := some (t.map (· * factor)),
               botm := some (b.map (· * factor)),
               idomain := m._idomain,
               xoff := m.xoffset * factor,
               yoff := m.yoffset * factor,
               angrot := m.angrot }
    | _, _, _, _, _ => .error "TypeError: NoneType is not iterable"
  else .error "AssertionError: Grid is not complete and cannot be converted"

/-- The coordinate → id-set dict `vset` built by `clean_iverts`
(unstructuredgrid.py:804-812). -/
def build_vset (recs : List VertRec) : List ((ℚ × ℚ) × List ℤ) :=
  recs.foldl
    (fun d r =>
      match pyGet d (r.2.1, r.2.2) with
      | some s => pyUpd d (r.2.1, r.2.2) (setAdd s r.1)
      | none => d ++ [((r.2.1, r.2.2), [r.1])])
    []

/-- The renumbering pass of `clean_iverts` (unstructuredgrid.py:814-821):
folds over `vset` producing `(ivert_remap, vertices, cnt)`. -/
def build_remap (vset : List ((ℚ × ℚ) × List ℤ)) :
    List (ℤ × ℕ) × List VertRec × ℕ :=
  vset.foldl
    (fun st e =>
      (e.2.foldl (fun r iv => pyUpd r iv st.2.2) st.1,
       st.2.1 ++ [(((st.2.2 : ℕ) : ℤ), e.1.1, e.1.2)],
       st.2.2 + 1))
    ([], [], 0)

/-- One step of the `clean_iverts` renumbering fold specialized to a
singleton id group — the form `build_remap` takes when no two vertex records
share coordinates: map the record id to the current counter, append the
renumbered vertex, bump the counter. -/
def remapStep (st : List (ℤ × ℕ) × List VertRec × ℕ) (r : VertRec) :
    List (ℤ × ℕ) × List VertRec × ℕ :=
  (pyUpd st.1 r.1 st.2.2,
   st.2.1 ++ [(((st.2.2 : ℕ) : ℤ), r.2.1, r.2.2)], st.2.2 + 1)

/-- `clean_iverts` (unstructuredgrid.py:788-846).  The result pairs the
Python return value (`none` = returns `None`, `some (.ok g)` = a new grid,
`some (.error e)` = raised) with the state of `self` afterwards, which is
mutated only on the valid `inplace=True` path. -/
def clean_iverts (m : UnstructuredGrid) (inplace : Bool) :
    Option (Except String UnstructuredGrid) × UnstructuredGrid :=
  match m._vertices, m.iverts, m._xc, m._yc with
  | some recs, some ivs, some _, some _ =>
      let rmv := build_remap (build_vset recs)
      match mapO (fun cell => mapO (fun v => pyGet rmv.1 v) cell) ivs with
      | none => (some (.error "KeyError: vertex id not found"), m)
      | some ivs2 =>
          let stored : List (List (Option ℤ)) :=
            ivs2.map (List.map (fun n => some ((n : ℕ) : ℤ)))
          if inplace then
            (none, { m with _vertices := some rmv.2.1, _iverts := some stored })
          else
            (some (init { vertices := some rmv.2.1, iverts := some stored,
                          xcenters := m._xc, ycenters := m._yc, top := m._top,
                          botm := m._botm, idomain := m._idomain,
                          lenuni := m._lenuni, ncpl := m._ncpl.map Sum.inr,
                          crs := m._crs, prjfile := m._prjfile,
                          xoff := m.xoffset, yoff := m.yoffset,
                          angrot := m.angrot, iac := m._iac, ja := m._ja }), m)
  | _, _, _, _ => (none, m)

end UnstructuredGrid

/-- One tokenized line of a grid-specification file, as produced by
`file.readline().strip().split()` with tokens upper-cased
(unstructuredgrid.py:1267-1270). -/
abbrev GsfLine : Type := List String

/-- The header-validation condition of `from_gridspec`
(unstructuredgrid.py:1275-1278), kept exactly as written:
`not (len == 1 and header[0] == "UNSTRUCTURED") or (len == 2 and
header == ["UNSTRUCTURED", "GWF"])` raises. -/
def gsf_header_check (line : GsfLine) : Except String GsfLine :=
  match line with
  | [] => .error "IndexError: list index out of range"
  | tok :: _ =>
      if ¬(line.length = 1 ∧ tok = "UNSTRUCTURED") ∨
          (line.length = 2 ∧ line = ["UNSTRUCTURED", "GWF"]) then
        .error "Invalid GSF file, no header"
      else .ok line

/-- The header scan of `from_gridspec` (unstructuredgrid.py:1272-1278): skip
leading lines whose first token starts with `#` (an empty line raises
IndexError at `header[0]`), then validate the first non-comment line. -/
def gsf_header : List GsfLine → Except String GsfLine
  | [] => .error "IndexError: list index out of range"
  | line :: rest =>
      match line with
      | [] => .error "IndexError: list index out of range"
      | tok :: _ =>
          if tok.front = '#' then gsf_header rest
          else gsf_header_check line

/-- The constructor's iverts-length assertions (unstructuredgrid.py:196-205)
restated as a predicate on `(ncpl, len(iverts))` for a valid grid: the
shared-layout branch requires every layer count to equal `len(iverts)`, the
varying branch requires `sum(ncpl) == len(iverts)` (an empty `ncpl` raises
IndexError in `grid_varies_by_layer`). -/
def iverts_len_ok (l : List ℕ) (n : ℕ) : Bool :=
  match l with
  | [] => false
  | c :: _ => if c = n then l.all (fun cpl => cpl = n) else decide (l.sum = n)

/-- The identity transform service, used to instantiate theorems about grids
with no reference offset or rotation. -/
def idTransform : Transform := fun x y _ _ _ => (x, y)

/-- A complete one-cell grid: the unit square with vertices
(0,0),(1,0),(1,1),(0,1), cell center (1/2,1/2), top 1 and botm 0. -/
def unitSquareGrid : UnstructuredGrid :=
  { _vertices := some [(0, 0, 0), (1, 1, 0), (2, 1, 1), (3, 0, 1)],
    _iverts := some [[some 0, some 1, some 2, some 3]],
    _xc := some [1/2], _yc := some [1/2],
    _top := some [1], _botm := some [0],
    _ncpl := some [1], _idomain := none, _lenuni := none,
    _crs := none, _prjfile := none,
    _xoff := 0, _yoff := 0, _angrot := 0,
    _iac := none, _ja := none }

/-- A two-cell grid: the unit squares [0,1]x[0,1] (cell 0) and [1,2]x[0,1]
(cell 1), sharing the edge x = 1. -/
def twoSquareGrid : UnstructuredGrid :=
  { _vertices := some [(0, 0, 0), (1, 1, 0), (2, 2, 0), (3, 2, 1), (4, 1, 1), (5, 0, 1)],
    _iverts := some [[some 0, some 1, some 4, some 5], [some 1, some 2, some 3, some 4]],
    _xc := some [1/2, 3/2], _yc := some [1/2, 1/2],
    _top := some [1, 1], _botm := some [0, 0],
    _ncpl := some [2], _idomain := none, _lenuni := none,
    _crs := none, _prjfile := none,
    _xoff := 0, _yoff := 0, _angrot := 0,
    _iac := none, _ja := none }

/-- A grid with no attribute arrays at all (not valid). -/
def emptyGrid : UnstructuredGrid :=
  { _vertices := none, _iverts := none, _xc := none, _yc := none,
    _top := none, _botm := none, _ncpl := none, _idomain := none,
    _lenuni := none, _crs := none, _prjfile := none,
    _xoff := 0, _yoff := 0, _angrot := 0, _iac := none, _ja := none }

/-- A valid two-layer grid in the shared-layout form (`ncpl = [2, 2]`, two
iverts rows) whose center arrays have length `nnodes = 4`. -/
def paddedCentersGrid : UnstructuredGrid :=
  { _vertices := some [(0, 0, 0), (1, 1, 0), (2, 1, 1), (3, 0, 1)],
    _iverts := some [[some 0, some 1, some 2], [some 0, some 2, some 3]],
    _xc := some [0, 0, 0, 0], _yc := some [0, 0, 0, 0],
    _top := none, _botm := none,
    _ncpl := some [2, 2], _idomain := none, _lenuni := none,
    _crs := none, _prjfile := none,
    _xoff := 0, _yoff := 0, _angrot := 0,
    _iac := none, _ja := none }

/-- A valid one-cell grid whose single cell references vertex id 5, which is
absent from the vertex list. -/
def danglingGrid : UnstructuredGrid :=
  { _vertices := some [(0, 0, 0)],
    _iverts := some [[some 5]],
    _xc := some [0], _yc := some [0],
    _top := none, _botm := none,
    _ncpl := some [1], _idomain := none, _lenuni := none,
    _crs := none, _prjfile := none,
    _xoff := 0, _yoff := 0, _angrot := 0,
    _iac := none, _ja := none }

/-! ## Theorems -/

section Claims

open UnstructuredGrid

/-- Helper: `set_ncpl` only touches `_ncpl`. -/
theorem set_ncpl_is_valid (m : UnstructuredGrid) (v : ℕ ⊕ List ℕ) :
    (m.set_ncpl v).is_valid = m.is_valid := rfl

/-- Helper: the `_iverts` attribute survives `set_ncpl`. -/
theorem set_ncpl_iverts (m : UnstructuredGrid) (v : ℕ ⊕ List ℕ) :
    (m.set_ncpl v)._iverts = m._iverts := rfl

/-- Helper: a successful construction returns exactly the post-ncpl-handling
state `init_m1`. -/
theorem init_ok_eq (a : InitArgs) (m : UnstructuredGrid)
    (h : init a = .ok m) : m = init_m1 a := by
  unfold init at h
  cases hiv : init_iverts0 a with
  | none => simp only [hiv] at h; exact (Except.ok.inj h).symm
  | some ivs =>
      simp only [hiv] at h
      cases hg : (init_m1 a).grid_varies_by_layer with
      | error e => simp only [hg] at h; simp at h
      | ok b =>
          simp only [hg] at h
          cases b with
          | false =>
              cases hnc : (init_m1 a)._ncpl with
              | none => simp only [hnc] at h; simp at h
              | some l =>
                  simp only [hnc] at h
                  by_cases hall : (l.all fun cpl => cpl = ivs.length) = true
                  · rw [if_pos hall] at h; exact (Except.ok.inj h).symm
                  · rw [if_neg hall] at h; simp at h
          | true =>
              by_cases hnn : (init_m1 a).nnodes = some ivs.length
              · rw [if_pos hnn] at h; exact (Except.ok.inj h).symm
              · rw [if_neg hnn] at h; simp at h

/-- Helper: `is_complete` unfolded — the vacuous `is not None` guard makes it
the base-class completeness test. -/
theorem is_complete_cases (m : UnstructuredGrid) :
    m.is_complete = true ↔
      (m.is_valid = true ∧ m._top.isSome = true ∧ m._botm.isSome = true) := by
  simp [is_complete, is_valid_opt, grid_base_is_complete, Bool.and_eq_true,
    and_assoc]

/-- Helper: validity is the presence of the four topology arrays. -/
theorem is_valid_fields (m : UnstructuredGrid) :
    m.is_valid = true ↔
      ∃ vs ivs xc yc, m._vertices = some vs ∧ m._iverts = some ivs ∧
        m._xc = some xc ∧ m._yc = some yc := by
  constructor
  · intro h
    simp only [is_valid, Bool.and_eq_true, Option.isSome_iff_exists] at h
    obtain ⟨⟨⟨⟨ivs, hi⟩, vs, hv⟩, xc, hx⟩, yc, hy⟩ := h
    exact ⟨vs, ivs, xc, yc, hv, hi, hx, hy⟩
  · rintro ⟨vs, ivs, xc, yc, hv, hi, hx, hy⟩
    simp [is_valid, hv, hi, hx, hy]

/-- Helper: constructing with explicit arrays, no `cell2d` table and no
`ncpl` argument succeeds when the four topology arrays are present, and
defaults `ncpl` to `[len(iverts)]`. -/
theorem init_no_ncpl (a : InitArgs) (vs : List VertRec)
    (ivs : List (List (Option ℤ))) (xc yc : List ℚ)
    (hc2 : a.cell2d = none) (hn : a.ncpl = none) (hv : a.vertices = some vs)
    (hi : a.iverts = some ivs) (hx : a.xcenters = some xc)
    (hy : a.ycenters = some yc) :
    init a = .ok {
      _vertices := some vs, _iverts := some ivs, _xc := some xc,
      _yc := some yc, _top := a.top, _botm := a.botm,
      _ncpl := some [ivs.length], _idomain := a.idomain, _lenuni := a.lenuni,
      _crs := a.crs, _prjfile := a.prjfile, _xoff := a.xoff, _yoff := a.yoff,
      _angrot := a.angrot, _iac := a.iac, _ja := a.ja } := by
  have hiv0 : init_iverts0 a = some ivs := by simp [init_iverts0, hc2, hi]
  have hm0 : init_m0 a = {
      _vertices := some vs, _iverts := some ivs,
      _xc := some xc, _yc := some yc, _top := a.top, _botm := a.botm,
      _ncpl := none, _idomain := a.idomain, _lenuni := a.lenuni,
      _crs := a.crs, _prjfile := a.prjfile, _xoff := a.xoff, _yoff := a.yoff,
      _angrot := a.angrot, _iac := a.iac, _ja := a.ja } := by
    simp [init_m0, init_iverts0, init_xc, init_yc, hc2, hv, hi, hx, hy]
  have hvalid : (init_m0 a).is_valid = true := by rw [hm0]; rfl
  have hm1 : init_m1 a = (init_m0 a).set_ncpl (.inl ivs.length) := by
    simp [init_m1, hn, hiv0, hvalid]
  have hgv : (init_m1 a).grid_varies_by_layer = .ok false := by
    rw [hm1, hm0]
    simp [grid_varies_by_layer, set_ncpl]
  have hnc : (init_m1 a)._ncpl = some [ivs.length] := by
    rw [hm1]; simp [set_ncpl]
  unfold init
  rw [hiv0]
  simp only [hgv, hnc]
  rw [if_pos (by simp)]
  rw [hm1, hm0]
  simp [set_ncpl]

/-- C1: for every mesh, `is_complete` returns true iff the mesh is valid
(iverts, vertices, xcenters and ycenters all present) and the top and botm
elevation arrays are present; in particular, a mesh with any of the four
topology arrays missing is never complete, even when top and botm are
present. -/
theorem C1_is_complete_iff (m : UnstructuredGrid) :
    m.is_complete = true ↔
      (m.is_valid = true ∧ m._top.isSome = true ∧ m._botm.isSome = true) :=
  is_complete_cases m

/-- C4 counterexample: a GSF header line `UNSTRUCTURED GWF` — which the claim
says `from_gridspec` accepts — is rejected by the header validation with the
no-header error. -/
theorem C4_gsf_gwf_rejected :
    gsf_header [["UNSTRUCTURED", "GWF"]] = .error "Invalid GSF file, no header" := by
  rfl

/-- C4 (amended): the header validation of `from_gridspec` accepts exactly
the one-token header `UNSTRUCTURED`; every other first non-comment header
line — including `UNSTRUCTURED GWF` — raises the no-header error.  Leading
`#` comment lines are skipped. -/
theorem C4_header_accepts_iff :
    (∀ line : GsfLine, gsf_header_check line = .ok line ↔ line = ["UNSTRUCTURED"]) ∧
    gsf_header [["#", "COMMENT"], ["UNSTRUCTURED"]] = .ok ["UNSTRUCTURED"] := by
  constructor
  · intro line
    match line with
    | [] => simp [gsf_header_check]
    | tok :: rest =>
        rcases Classical.em (tok :: rest = ["UNSTRUCTURED"]) with h | h
        · rw [h]; simp [gsf_header_check]
        · have hc : ¬((tok :: rest).length = 1 ∧ tok = "UNSTRUCTURED") := by
            rintro ⟨h1, rfl⟩
            apply h
            cases rest with
            | nil => rfl
            | cons a l => simp at h1
          simp only [gsf_header_check, if_pos (Or.inl hc)]
          simp [h]
  · rfl

/-- C8: `neighbors(method="iac")` on `iac = [3,2,2]`, `ja = [0,1,2,1,0,2,0]`:
the code returns `[1,2]` for node 0 (matching the claim's scenario) but `[1]`
for node 1, whereas the claimed cumulative-offset slice for node 1 is
`ja[4:5] = [0]` — the loop never advances `idx0`, so every node is sliced at
offset 0. -/
theorem C8_neighbors_eval :
    neighbors_iac [3, 2, 2] [0, 1, 2, 1, 0, 2, 0] 0 = some [1, 2] ∧
    neighbors_iac [3, 2, 2] [0, 1, 2, 1, 0, 2, 0] 1 = some [1] ∧
    pySlice [(0 : ℤ), 1, 2, 1, 0, 2, 0] (3 + 1) (3 + 2) = [0] ∧
    ([1] : List ℤ) ≠ [0] := by
  refine ⟨?_, ?_, ?_, ?_⟩ <;> decide

/-- C6: a mesh constructed without an `ncpl` argument that is valid gets
`ncpl = [len(iverts)]`; and for every mesh whose `ncpl` is set,
`nnodes = sum(ncpl)` and `nlay = len(ncpl)` — the latter is a property of
every mesh state, hence preserved by every operation. -/
theorem C6_ncpl_invariants :
    (∀ (a : InitArgs) (m : UnstructuredGrid), a.ncpl = none → init a = .ok m →
        m.is_valid = true →
        ∃ ivs, m._iverts = some ivs ∧ m._ncpl = some [ivs.length]) ∧
    (∀ (m : UnstructuredGrid) (l : List ℕ), m._ncpl = some l →
        m.nnodes = some l.sum ∧ m.nlay = some l.length) := by
  constructor
  · intro a m hn hinit hvalid
    have hm := init_ok_eq a m hinit
    subst hm
    simp only [init_m1, hn] at hvalid ⊢
    cases hiv : init_iverts0 a with
    | none =>
        simp only [hiv] at hvalid
        simp [is_valid, init_m0, hiv] at hvalid
    | some ivs =>
        simp only [hiv] at hvalid ⊢
        by_cases hv : (init_m0 a).is_valid = true
        · simp only [if_pos hv]
          exact ⟨ivs, by simp [set_ncpl, init_m0, hiv], by simp [set_ncpl]⟩
        · simp only [if_neg hv] at hvalid
          exact absurd hvalid hv
  · intro m l h
    simp [nnodes, nlay, ncpl, h]

/-- Helper: with `z` omitted and in-range candidate indices, the `intersect`
scan loop returns the first candidate passing the per-cell test. -/
theorem intersect_scan_none_eq_find (m : UnstructuredGrid)
    (xvl yvl : List (List ℚ)) (zv : Option (List ℚ × List ℚ)) (x y : ℚ) :
    ∀ L : List ℕ, (∀ i ∈ L, i < xvl.length ∧ i < yvl.length) →
      intersect_scan m xvl yvl zv x y none L =
        .ok (L.find? (fun i => cell_hit (xvl.getD i []) (yvl.getD i []) x y)) := by
  intro L
  induction L with
  | nil => intro _; rfl
  | cons i rest ih =>
      intro hb
      obtain ⟨⟨h1, h2⟩, hrest⟩ := List.forall_mem_cons.mp hb
      unfold intersect_scan
      have e1 : xvl[i]? = some (xvl.getD i []) := by
        simp [List.getD, List.getElem?_eq_getElem h1]
      have e2 : yvl[i]? = some (yvl.getD i []) := by
        simp [List.getD, List.getElem?_eq_getElem h2]
      rw [e1, e2]
      cases hh : cell_hit (xvl.getD i []) (yvl.getD i []) x y with
      | true => simp only [List.find?, hh, if_true, intersect_zcheck]
      | false =>
          simp only [List.find?, hh, Bool.false_eq_true, if_false, ih hrest]

/-- Helper: when no candidate passes the per-cell test, the scan loop falls
through for any `z`. -/
theorem intersect_scan_no_hit (m : UnstructuredGrid)
    (xvl yvl : List (List ℚ)) (zv : Option (List ℚ × List ℚ)) (x y : ℚ)
    (z : Option ℚ) :
    ∀ L : List ℕ, (∀ i ∈ L, i < xvl.length ∧ i < yvl.length) →
      (∀ i ∈ L, cell_hit (xvl.getD i []) (yvl.getD i []) x y = false) →
      intersect_scan m xvl yvl zv x y z L = .ok none := by
  intro L
  induction L with
  | nil => intro _ _; rfl
  | cons i rest ih =>
      intro hb hmiss
      obtain ⟨⟨h1, h2⟩, hrest⟩ := List.forall_mem_cons.mp hb
      obtain ⟨hm1, hmrest⟩ := List.forall_mem_cons.mp hmiss
      unfold intersect_scan
      have e1 : xvl[i]? = some (xvl.getD i []) := by
        simp [List.getD, List.getElem?_eq_getElem h1]
      have e2 : yvl[i]? = some (yvl.getD i []) := by
        simp [List.getD, List.getElem?_eq_getElem h2]
      rw [e1, e2]
      simp only [hm1, Bool.false_eq_true, if_false, ih hrest hmrest]

/-- C2 (amended): with `z` omitted, `intersect` scans candidate cells in
ascending id order (all `nnodes` cells for a layer-varying grid, else the
first `ncpl[0]`), and returns the first cell that passes the bounding-box
prefilter together with the winding-based edge-tolerant containment test
(radius `-1e-9` for a clockwise ring, `+1e-9` otherwise); a point on the
shared edge of two cells therefore yields the lower cell id, and
`intersect(0.5, 0.5)` on the single unit-square cell returns cell id 0. -/
theorem C2_intersect_scan_order :
    (∀ (tr : Transform) (m : UnstructuredGrid) (x y : ℚ)
        (xvl yvl : List (List ℚ)) (n : ℕ),
        m.xyvertices tr = .ok (xvl, yvl) → m.intersect_ncpl = .ok n →
        n ≤ xvl.length → n ≤ yvl.length →
        m.intersect tr x y none false false =
          (match (List.range n).find?
              (fun i => cell_hit (xvl.getD i []) (yvl.getD i []) x y) with
          | some i => .ok (.cell i)
          | none => .error "point given is outside of the model area")) ∧
    twoSquareGrid.intersect idTransform 1 (1/2) none false false =
      .ok (.cell 0) ∧
    unitSquareGrid.intersect idTransform (1/2) (1/2) none false false =
      .ok (.cell 0) := by
  refine ⟨?_, ?_, ?_⟩
  · intro tr m x y xvl yvl n hg hn hx hy
    unfold intersect
    simp only [Bool.false_eq_true, if_false, hg, hn]
    rw [intersect_scan_none_eq_find m xvl yvl m.zcoords x y (List.range n)
      (fun i hi => ⟨lt_of_lt_of_le (List.mem_range.mp hi) hx,
        lt_of_lt_of_le (List.mem_range.mp hi) hy⟩)]
    cases hf : (List.range n).find?
        (fun i => cell_hit (xvl.getD i []) (yvl.getD i []) x y) with
    | some i => simp only []
    | none => simp only [Bool.false_eq_true, if_false]
  · norm_num [UnstructuredGrid.intersect, UnstructuredGrid.xyvertices,
      UnstructuredGrid.cell_xyvertices, UnstructuredGrid.iverts,
      UnstructuredGrid.vertexdict, UnstructuredGrid.resolve_cell, pyUpd,
      pyGet, mapE, UnstructuredGrid.has_ref_coordinates,
      UnstructuredGrid.intersect_ncpl, UnstructuredGrid.grid_varies_by_layer,
      UnstructuredGrid.nnodes, UnstructuredGrid.ncpl,
      UnstructuredGrid.intersect_scan, UnstructuredGrid.intersect_zcheck,
      cell_hit, contains_point, crossings,
      distSqToSeg, is_clockwise, cyclicPairs, UnstructuredGrid.zcoords,
      twoSquareGrid, idTransform, List.range_succ]
  · norm_num [UnstructuredGrid.intersect, UnstructuredGrid.xyvertices,
      UnstructuredGrid.cell_xyvertices, UnstructuredGrid.iverts,
      UnstructuredGrid.vertexdict, UnstructuredGrid.resolve_cell, pyUpd,
      pyGet, mapE, UnstructuredGrid.has_ref_coordinates,
      UnstructuredGrid.intersect_ncpl, UnstructuredGrid.grid_varies_by_layer,
      UnstructuredGrid.nnodes, UnstructuredGrid.ncpl,
      UnstructuredGrid.intersect_scan, UnstructuredGrid.intersect_zcheck,
      cell_hit, contains_point, crossings,
      distSqToSeg, is_clockwise, cyclicPairs, UnstructuredGrid.zcoords,
      unitSquareGrid, idTransform, List.range_succ]

/-- C2 counterexample to the claim as stated: the point
`(1 + 1e-10, 1/2)` lies within the `1e-9` tolerance of cell 0's boundary
(so cell 0, the smaller id, contains it under the edge-tolerant test with
the code's counter-clockwise radius `+1e-9`), yet `intersect` returns cell 1:
the bounding-box prefilter skips cell 0 because the point is strictly outside
its vertex range. -/
theorem C2_bbox_prefilter_skips :
    twoSquareGrid.intersect idTransform (1 + 1/10000000000) (1/2) none
      false false = .ok (.cell 1) ∧
    is_clockwise [0, 1, 1, 0] [0, 0, 1, 1] = false ∧
    contains_point [(0, 0), (1, 0), (1, 1), (0, 1)]
      (1 + 1/10000000000, 1/2) (1/1000000000) = true := by
  refine ⟨?_, ?_, ?_⟩
  · norm_num [UnstructuredGrid.intersect, UnstructuredGrid.xyvertices,
      UnstructuredGrid.cell_xyvertices, UnstructuredGrid.iverts,
      UnstructuredGrid.vertexdict, UnstructuredGrid.resolve_cell, pyUpd,
      pyGet, mapE, UnstructuredGrid.has_ref_coordinates,
      UnstructuredGrid.intersect_ncpl, UnstructuredGrid.grid_varies_by_layer,
      UnstructuredGrid.nnodes, UnstructuredGrid.ncpl,
      UnstructuredGrid.intersect_scan, UnstructuredGrid.intersect_zcheck,
      cell_hit, contains_point, crossings,
      distSqToSeg, is_clockwise, cyclicPairs, UnstructuredGrid.zcoords,
      twoSquareGrid, idTransform, List.range_succ]
  · norm_num [is_clockwise, cyclicPairs]
  · norm_num [contains_point, crossings, distSqToSeg, cyclicPairs]

/-- C2 witness for the general scan-order statement: the unit-square grid at
its center. -/
theorem C2_intersect_scan_order_witness :
    unitSquareGrid.intersect idTransform (1/2) (1/2) none false false =
      (match (List.range 1).find? (fun i =>
          cell_hit ([[(0 : ℚ), 1, 1, 0]].getD i [])
            ([[(0 : ℚ), 0, 1, 1]].getD i []) (1/2) (1/2)) with
      | some i => .ok (.cell i)
      | none => .error "point given is outside of the model area") :=
  C2_intersect_scan_order.1 idTransform unitSquareGrid (1/2) (1/2)
    [[0, 1, 1, 0]] [[0, 0, 1, 1]] 1 rfl rfl (by norm_num) (by norm_num)

/-- C3: for a query point contained in no cell (no candidate passes the
per-cell test), `intersect` raises when `forgive` is false and returns the
nan sentinel when `forgive` is true; the embedding is a pure read of the
mesh, whose topology state is unchanged either way. -/
theorem C3_intersect_forgive (tr : Transform) (m : UnstructuredGrid)
    (x y : ℚ) (z : Option ℚ) (xvl yvl : List (List ℚ)) (n : ℕ)
    (hg : m.xyvertices tr = .ok (xvl, yvl)) (hn : m.intersect_ncpl = .ok n)
    (hx : n ≤ xvl.length) (hy : n ≤ yvl.length)
    (hmiss : ∀ i, i < n → cell_hit (xvl.getD i []) (yvl.getD i []) x y = false) :
    m.intersect tr x y z false false =
      .error "point given is outside of the model area" ∧
    m.intersect tr x y z false true = .ok .nan := by
  have hscan : intersect_scan m xvl yvl m.zcoords x y z (List.range n) =
      .ok none :=
    intersect_scan_no_hit m xvl yvl m.zcoords x y z (List.range n)
      (fun i hi => ⟨lt_of_lt_of_le (List.mem_range.mp hi) hx,
        lt_of_lt_of_le (List.mem_range.mp hi) hy⟩)
      (fun i hi => hmiss i (List.mem_range.mp hi))
  constructor <;>
    · unfold intersect
      simp only [Bool.false_eq_true, if_false, hg, hn, hscan, if_true]

/-- C3 witness: the unit-square grid queried at `(5, 5)`. -/
theorem C3_intersect_forgive_witness :
    unitSquareGrid.intersect idTransform 5 5 none false false =
      .error "point given is outside of the model area" ∧
    unitSquareGrid.intersect idTransform 5 5 none false true = .ok .nan :=
  C3_intersect_forgive idTransform unitSquareGrid 5 5 none
    [[0, 1, 1, 0]] [[0, 0, 1, 1]] 1 rfl rfl (by norm_num) (by norm_num)
    (by
      intro i hi
      obtain rfl : i = 0 := by omega
      norm_num [cell_hit, contains_point, crossings, distSqToSeg,
        is_clockwise, cyclicPairs])

/-- C5: on a complete mesh, `convert_grid(factor)` returns a new mesh in
which every vertex x/y coordinate, cell-center x/y coordinate, top and botm
value and both offsets equal `factor` times the original, while `angrot` and
the cell vertex-id lists are unchanged; the original instance is untouched
(the operation builds a fresh instance from a pure read of the original).
On an incomplete mesh it raises the completeness assertion. -/
theorem C5_convert_grid (m : UnstructuredGrid) (factor : ℚ) :
    (m.is_complete = true →
      ∃ m', m.convert_grid factor = .ok m' ∧
        m'._vertices = m._vertices.map
          (List.map (fun r : VertRec => (r.1, r.2.1 * factor, r.2.2 * factor))) ∧
        m'._xc = m._xc.map (List.map (· * factor)) ∧
        m'._yc = m._yc.map (List.map (· * factor)) ∧
        m'._top = m._top.map (List.map (· * factor)) ∧
        m'._botm = m._botm.map (List.map (· * factor)) ∧
        m'._xoff = m._xoff * factor ∧ m'._yoff = m._yoff * factor ∧
        m'._angrot = m._angrot ∧ m'._iverts = m._iverts) ∧
    (m.is_complete = false →
      m.convert_grid factor =
        .error "AssertionError: Grid is not complete and cannot be converted") := by
  constructor
  · intro h
    obtain ⟨hval, hts, hbs⟩ := (is_complete_cases m).mp h
    obtain ⟨vs, ivs, xc, yc, hv, hi, hx, hy⟩ := (is_valid_fields m).mp hval
    obtain ⟨t, ht⟩ := Option.isSome_iff_exists.mp hts
    obtain ⟨b, hb⟩ := Option.isSome_iff_exists.mp hbs
    unfold convert_grid
    rw [if_pos h]
    simp only [top, botm, hv, hx, hy, ht, hb]
    refine ⟨_, init_no_ncpl _ _ ivs _ _ rfl rfl rfl hi rfl rfl, ?_⟩
    simp [hv, hx, hy, ht, hb, hi, xoffset, yoffset, angrot]
  · intro h
    unfold convert_grid
    rw [if_neg (by simp [h])]

/-- C5 witness: doubling the complete unit-square grid. -/
theorem C5_convert_grid_witness :
    ∃ m', unitSquareGrid.convert_grid 2 = .ok m' ∧
      m'._vertices = unitSquareGrid._vertices.map
        (List.map (fun r : VertRec => (r.1, r.2.1 * 2, r.2.2 * 2))) ∧
      m'._xc = unitSquareGrid._xc.map (List.map (· * 2)) ∧
      m'._yc = unitSquareGrid._yc.map (List.map (· * 2)) ∧
      m'._top = unitSquareGrid._top.map (List.map (· * 2)) ∧
      m'._botm = unitSquareGrid._botm.map (List.map (· * 2)) ∧
      m'._xoff = unitSquareGrid._xoff * 2 ∧
      m'._yoff = unitSquareGrid._yoff * 2 ∧
      m'._angrot = unitSquareGrid._angrot ∧
      m'._iverts = unitSquareGrid._iverts :=
  (C5_convert_grid unitSquareGrid 2).1 rfl

/-- Helper: the `cell2d` record loop on the non-layered path with in-range
indices returns one record per node. -/
theorem cell2d_go_ok (ivs : List (List (Option ℤ))) (xc yc : List ℚ)
    (c0 : Option ℕ) :
    ∀ L : List ℕ,
      (∀ ix ∈ L, ix < ivs.length ∧ ix < xc.length ∧ ix < yc.length) →
      cell2d_go ivs xc yc c0 false L 0 =
        .ok (L.map (fun ix => (ix, xc.getD ix 0, yc.getD ix 0,
          (ivs.getD ix []).length, ivs.getD ix []))) := by
  intro L
  induction L with
  | nil => intro _; rfl
  | cons ix rest ih =>
      intro hb
      obtain ⟨⟨h1, h2, h3⟩, hrest⟩ := List.forall_mem_cons.mp hb
      unfold cell2d_go
      have e1 : ivs[ix - 0]? = some (ivs.getD ix []) := by
        simp [List.getD, List.getElem?_eq_getElem h1]
      have e2 : xc[ix - 0]? = some (xc.getD ix 0) := by
        simp [List.getD, List.getElem?_eq_getElem h2]
      have e3 : yc[ix - 0]? = some (yc.getD ix 0) := by
        simp [List.getD, List.getElem?_eq_getElem h3]
      simp only [Bool.false_eq_true, if_false, e1, e2, e3, ih hrest]
      simp [List.map_cons]

/-- C9 (amended): reading `cell2d` is free of the modulo-by-zero evaluation
exactly when the number of cell centers equals `nnodes`.  When they are equal
— and the iverts and ycenters arrays are long enough for the per-node
indexing — `cell2d` returns one `[node, xc, yc, nverts, iv...]` record per
node without evaluating the zero-modulus branch; when they differ, the
layering guard evaluates `ncenters / self.nnodes % 0`, a modulo by the
literal zero (which numpy turns into nan with a warning). -/
theorem C9_cell2d :
    (∀ (m : UnstructuredGrid) (l : List ℕ) (xc yc : List ℚ)
        (ivs : List (List (Option ℤ))),
        m._ncpl = some l → m._iverts = some ivs → m._xc = some xc →
        m._yc = some yc → m._vertices.isSome = true →
        xc.length = l.sum → l.sum ≤ ivs.length → l.sum ≤ yc.length →
        m.cell2d = some (.ok ((List.range l.sum).map (fun ix =>
            (ix, xc.getD ix 0, yc.getD ix 0, (ivs.getD ix []).length,
              ivs.getD ix [])))) ∧
        m.cell2d_mod_evaluated = some false) ∧
    (∀ (m : UnstructuredGrid) (l : List ℕ) (xc : List ℚ),
        m._ncpl = some l → m._xc = some xc → m.is_valid = true →
        xc.length ≠ l.sum → m.cell2d_mod_evaluated = some true) := by
  constructor
  · intro m l xc yc ivs hn hi hx hy hvs hlen hbi hby
    obtain ⟨vvs, hvv⟩ := Option.isSome_iff_exists.mp hvs
    have hnn : m.nnodes = some l.sum := by simp [nnodes, ncpl, hn]
    have hguard : cell2d_guard xc.length l.sum = (false, false) := by
      simp [cell2d_guard, hlen]
    constructor
    · unfold cell2d
      rw [hi, hvv, hx, hy]
      simp only [hnn, hguard]
      exact congrArg some (cell2d_go_ok ivs xc yc _ (List.range l.sum)
        (fun ix hix => by
          have := List.mem_range.mp hix
          exact ⟨lt_of_lt_of_le this hbi, by omega, lt_of_lt_of_le this hby⟩))
    · unfold cell2d_mod_evaluated
      rw [hi, hvv, hx, hy]
      simp only [hnn, hguard]
  · intro m l xc hn hx hval hne
    obtain ⟨vs, ivs, xc', yc, hv, hi, hx', hy⟩ := (is_valid_fields m).mp hval
    have hxx : xc' = xc := by rw [hx] at hx'; exact (Option.some.inj hx').symm
    subst hxx
    have hnn : m.nnodes = some l.sum := by simp [nnodes, ncpl, hn]
    unfold cell2d_mod_evaluated
    rw [hi, hv, hx, hy]
    simp only [hnn]
    simp [cell2d_guard, hne]

/-- C9 counterexample: a valid grid (shared two-layer layout, `ncpl=[2,2]`,
two iverts rows) whose center arrays have length `nnodes = 4`: `cell2d`
raises IndexError instead of returning `nnodes` records, because the
non-layered path indexes `_iverts[ix]` for every node. -/
theorem C9_padded_centers_raises :
    paddedCentersGrid.is_valid = true ∧
    paddedCentersGrid._xc.map List.length = some 4 ∧
    paddedCentersGrid.nnodes = some 4 ∧
    paddedCentersGrid.cell2d =
      some (.error "IndexError: list index out of range") := by
  refine ⟨rfl, rfl, rfl, rfl⟩

/-- C9 witness: the one-cell unit-square grid, where the center count equals
`nnodes = 1`. -/
theorem C9_cell2d_witness :
    unitSquareGrid.cell2d = some (.ok ((List.range ([1] : List ℕ).sum).map
      (fun ix => (ix, [(1 : ℚ)/2].getD ix 0, [(1 : ℚ)/2].getD ix 0,
        (([[some 0, some 1, some 2, some 3]] :
          List (List (Option ℤ))).getD ix []).length,
        ([[some 0, some 1, some 2, some 3]] :
          List (List (Option ℤ))).getD ix [])))) ∧
    unitSquareGrid.cell2d_mod_evaluated = some false :=
  C9_cell2d.1 unitSquareGrid [1] [1/2] [1/2] [[some 0, some 1, some 2, some 3]]
    rfl rfl rfl rfl rfl rfl (by norm_num) (by norm_num)

/-- Helper: lookup after a dict update. -/
theorem pyGet_pyUpd {α β : Type} [DecidableEq α] (d : List (α × β)) (k : α)
    (v : β) (q : α) :
    pyGet (pyUpd d k v) q = if k = q then some v else pyGet d q := by
  induction d with
  | nil => by_cases h : k = q <;> simp [pyUpd, pyGet, h]
  | cons e rest ih =>
      obtain ⟨k', v'⟩ := e
      by_cases h1 : k' = k <;> by_cases h2 : k' = q
      · subst h1; subst h2; simp [pyUpd, pyGet]
      · subst h1; simp [pyUpd, pyGet, h2]
      · subst h2
        have hk : ¬k = k' := fun h => h1 h.symm
        simp [pyUpd, pyGet, h1, hk]
      · simp [pyUpd, pyGet, h1, h2, ih]

/-- Helper: lookup in a concatenation of dicts. -/
theorem pyGet_append {α β : Type} [DecidableEq α] (d1 d2 : List (α × β))
    (q : α) :
    pyGet (d1 ++ d2) q =
      (match pyGet d1 q with
      | some v => some v
      | none => pyGet d2 q) := by
  induction d1 with
  | nil => simp [pyGet]
  | cons e rest ih =>
      obtain ⟨k', v'⟩ := e
      by_cases h : k' = q
      · simp [pyGet, h]
      · simp only [List.cons_append, pyGet, if_neg h]
        rw [← ih]
        rfl

/-- Helper: `vertexdict` of a snoc is an update of the prefix dict. -/
theorem vertexdict_append (l : List VertRec) (r : VertRec) :
    vertexdict (l ++ [r]) = pyUpd (vertexdict l) r.1 (r.2.1, r.2.2) := by
  simp [vertexdict, vdictStep, List.foldl_append]

/-- Helper: with pairwise-distinct coordinates the `vset` fold appends one
singleton group per record, in record order. -/
theorem build_vset_nodup_go (recs : List VertRec) :
    ∀ d : List ((ℚ × ℚ) × List ℤ),
      (∀ r ∈ recs, pyGet d (r.2.1, r.2.2) = none) →
      (recs.map (fun r => (r.2.1, r.2.2))).Nodup →
      recs.foldl
        (fun d r =>
          match pyGet d (r.2.1, r.2.2) with
          | some s => pyUpd d (r.2.1, r.2.2) (setAdd s r.1)
          | none => d ++ [((r.2.1, r.2.2), [r.1])])
        d
      = d ++ recs.map (fun r => ((r.2.1, r.2.2), [r.1])) := by
  induction recs with
  | nil => intro d _ _; simp
  | cons r rest ih =>
      intro d hnone hnd
      obtain ⟨hhead, hrest⟩ := List.forall_mem_cons.mp hnone
      simp only [List.map_cons, List.nodup_cons, List.mem_map] at hnd
      obtain ⟨hnotin, hnd'⟩ := hnd
      simp only [List.foldl_cons, hhead]
      rw [ih (d ++ [((r.2.1, r.2.2), [r.1])])
        (fun r' hr' => by
          rw [pyGet_append, hrest r' hr']
          show pyGet [((r.2.1, r.2.2), [r.1])] (r'.2.1, r'.2.2) = none
          simp only [pyGet]
          rw [if_neg (fun hc => hnotin ⟨r', hr', hc.symm⟩)])
        hnd']
      simp

/-- Helper: with all-singleton groups, the `build_remap` fold is the
record-by-record renumbering fold. -/
theorem build_remap_singles (recs : List VertRec)
    (st : List (ℤ × ℕ) × List VertRec × ℕ) :
    (recs.map (fun r => ((r.2.1, r.2.2), [r.1]))).foldl
      (fun st e =>
        (e.2.foldl (fun r iv => pyUpd r iv st.2.2) st.1,
         st.2.1 ++ [(((st.2.2 : ℕ) : ℤ), e.1.1, e.1.2)],
         st.2.2 + 1))
      st =
    recs.foldl remapStep st := by
  rw [List.foldl_map]
  rfl

/-- Helper: the joint invariant of the `clean_iverts` renumbering fold — the
remap values stay below the counter, and composing the remap with the dict of
the renumbered vertices agrees (pointwise, including definedness) with the
evolving original vertex dict. -/
theorem clean_remap_invariant (recs : List VertRec) :
    ∀ (rm : List (ℤ × ℕ)) (vs : List VertRec) (c : ℕ)
      (d : List (ℤ × (ℚ × ℚ))),
      (∀ v i, pyGet rm v = some i → i < c) →
      (∀ v, (pyGet rm v).bind
          (fun i => pyGet (vertexdict vs) ((i : ℕ) : ℤ)) = pyGet d v) →
      (∀ v, (pyGet rm v).isSome = (pyGet d v).isSome) →
      (∀ v i, pyGet (recs.foldl remapStep (rm, vs, c)).1 v = some i →
          i < (recs.foldl remapStep (rm, vs, c)).2.2) ∧
      (∀ v, (pyGet (recs.foldl remapStep (rm, vs, c)).1 v).bind
          (fun i => pyGet (vertexdict (recs.foldl remapStep (rm, vs, c)).2.1)
            ((i : ℕ) : ℤ)) = pyGet (recs.foldl vdictStep d) v) ∧
      (∀ v, (pyGet (recs.foldl remapStep (rm, vs, c)).1 v).isSome =
          (pyGet (recs.foldl vdictStep d) v).isSome) := by
  induction recs with
  | nil => intro rm vs c d h1 h2 h3; exact ⟨h1, h2, h3⟩
  | cons r rest ih =>
      intro rm vs c d h1 h2 h3
      simp only [List.foldl_cons]
      apply ih
      · intro v i hv
        simp only [remapStep, pyGet_pyUpd] at hv
        by_cases he : r.1 = v
        · rw [if_pos he] at hv
          cases hv
          exact Nat.lt_succ_self c
        · rw [if_neg he] at hv
          exact Nat.lt_succ_of_lt (h1 v i hv)
      · intro v
        simp only [remapStep, vdictStep, pyGet_pyUpd]
        by_cases he : r.1 = v
        · rw [if_pos he, if_pos he]
          simp only [Option.some_bind]
          rw [vertexdict_append]
          simp [pyGet_pyUpd]
        · rw [if_neg he, if_neg he]
          cases hrm : pyGet rm v with
          | none =>
              rw [← h2 v, hrm]
              rfl
          | some i =>
              have hic := h1 v i hrm
              rw [← h2 v, hrm]
              simp only [Option.some_bind]
              rw [vertexdict_append]
              simp only [pyGet_pyUpd]
              rw [if_neg (fun hcast => by
                have : c = i := Int.ofNat.inj hcast
                omega)]
      · intro v
        simp only [remapStep, vdictStep, pyGet_pyUpd]
        by_cases he : r.1 = v
        · rw [if_pos he, if_pos he]
          rfl
        · rw [if_neg he, if_neg he]
          exact h3 v

/-- Helper: unfolding one cell id in `resolve_cell`. -/
theorem resolve_cell_cons (vd : List (ℤ × (ℚ × ℚ))) (x : ℤ) (xs : List ℤ) :
    resolve_cell vd (x :: xs) =
      (match pyGet vd x with
      | some p =>
          (match resolve_cell vd xs with
          | .error e => .error e
          | .ok ps => .ok (p :: ps))
      | none => .error "KeyError: vertex id not found") := by
  cases h : pyGet vd x
  · simp [resolve_cell, mapE, h]
  · simp only [resolve_cell, mapE, h]
    cases hm : mapE (fun ix =>
        match pyGet vd ix with
        | some p => Except.ok p
        | none => Except.error "KeyError: vertex id not found") xs <;>
      rfl

/-- Helper: `mapO` preserves length. -/
theorem mapO_length {α β : Type} (f : α → Option β) :
    ∀ (l : List α) (l' : List β), mapO f l = some l' → l'.length = l.length := by
  intro l
  induction l with
  | nil => intro l' h; cases h; rfl
  | cons a as ih =>
      intro l' h
      simp only [mapO] at h
      cases hf : f a with
      | none => rw [hf] at h; cases h
      | some b =>
          rw [hf] at h
          cases hm : mapO f as with
          | none => rw [hm] at h; cases h
          | some bs =>
              rw [hm] at h
              cases h
              simp [ih bs hm]

/-- Helper: under the remap/dict agreement, renumbering a cell's id list
succeeds whenever the original resolution does, and the renumbered cell
resolves to the same coordinate sequence. -/
theorem resolve_remap_cell (rm : List (ℤ × ℕ))
    (vdNew vdOld : List (ℤ × (ℚ × ℚ)))
    (hψ : ∀ v, (pyGet rm v).bind
      (fun i => pyGet vdNew ((i : ℕ) : ℤ)) = pyGet vdOld v)
    (hs : ∀ v, (pyGet rm v).isSome = (pyGet vdOld v).isSome) :
    ∀ cell : List ℤ, (∀ v ∈ cell, (pyGet vdOld v).isSome = true) →
      ∃ cell' : List ℕ, mapO (fun v => pyGet rm v) cell = some cell' ∧
        resolve_cell vdNew (cell'.map (fun n => ((n : ℕ) : ℤ))) =
          resolve_cell vdOld cell := by
  intro cell
  induction cell with
  | nil => intro _; exact ⟨[], rfl, rfl⟩
  | cons v tail ih =>
      intro hb
      obtain ⟨hv, htail⟩ := List.forall_mem_cons.mp hb
      obtain ⟨i, hi⟩ := Option.isSome_iff_exists.mp ((hs v).trans hv)
      obtain ⟨p, hp⟩ := Option.isSome_iff_exists.mp hv
      have hnew : pyGet vdNew ((i : ℕ) : ℤ) = some p := by
        have hb := hψ v
        rw [hi, hp] at hb
        simpa using hb
      obtain ⟨tail', ht1, ht2⟩ := ih htail
      refine ⟨i :: tail', ?_, ?_⟩
      · simp only [mapO, hi, ht1]
      · rw [List.map_cons, resolve_cell_cons, resolve_cell_cons, hnew, hp, ht2]

/-- Helper: the row-level version of `resolve_remap_cell`. -/
theorem resolve_remap_rows (rm : List (ℤ × ℕ))
    (vdNew vdOld : List (ℤ × (ℚ × ℚ)))
    (hψ : ∀ v, (pyGet rm v).bind
      (fun i => pyGet vdNew ((i : ℕ) : ℤ)) = pyGet vdOld v)
    (hs : ∀ v, (pyGet rm v).isSome = (pyGet vdOld v).isSome) :
    ∀ rows : List (List ℤ),
      (∀ cell ∈ rows, ∀ v ∈ cell, (pyGet vdOld v).isSome = true) →
      ∃ rows' : List (List ℕ),
        mapO (fun cell => mapO (fun v => pyGet rm v) cell) rows = some rows' ∧
        mapE (resolve_cell vdNew)
            (rows'.map (List.map (fun n => ((n : ℕ) : ℤ)))) =
          mapE (resolve_cell vdOld) rows := by
  intro rows
  induction rows with
  | nil => intro _; exact ⟨[], rfl, rfl⟩
  | cons cell rest ih =>
      intro hb
      obtain ⟨hc, hrest⟩ := List.forall_mem_cons.mp hb
      obtain ⟨cell', hc1, hc2⟩ := resolve_remap_cell rm vdNew vdOld hψ hs cell hc
      obtain ⟨rest', hr1, hr2⟩ := ih hrest
      refine ⟨cell' :: rest', ?_, ?_⟩
      · simp only [mapO, hc1, hr1]
      · simp only [List.map_cons, mapE, hc2, hr2]

/-- Helper: constructing with explicit arrays, no `cell2d` table and an
explicit array `ncpl` succeeds when the four topology arrays are present and
the iverts-length assertions hold. -/
theorem init_with_ncpl (a : InitArgs) (vs : List VertRec)
    (ivs : List (List (Option ℤ))) (xc yc : List ℚ) (l : List ℕ)
    (hc2 : a.cell2d = none) (hn : a.ncpl = some (.inr l))
    (hv : a.vertices = some vs) (hi : a.iverts = some ivs)
    (hx : a.xcenters = some xc) (hy : a.ycenters = some yc)
    (hlen : iverts_len_ok l ivs.length = true) :
    init a = .ok {
      _vertices := some vs, _iverts := some ivs, _xc := some xc,
      _yc := some yc, _top := a.top, _botm := a.botm,
      _ncpl := some l, _idomain := a.idomain, _lenuni := a.lenuni,
      _crs := a.crs, _prjfile := a.prjfile, _xoff := a.xoff, _yoff := a.yoff,
      _angrot := a.angrot, _iac := a.iac, _ja := a.ja } := by
  have hiv0 : init_iverts0 a = some ivs := by simp [init_iverts0, hc2, hi]
  have hm1 : init_m1 a = {
      _vertices := some vs, _iverts := some ivs,
      _xc := some xc, _yc := some yc, _top := a.top, _botm := a.botm,
      _ncpl := some l, _idomain := a.idomain, _lenuni := a.lenuni,
      _crs := a.crs, _prjfile := a.prjfile, _xoff := a.xoff, _yoff := a.yoff,
      _angrot := a.angrot, _iac := a.iac, _ja := a.ja } := by
    simp [init_m1, init_m0, init_iverts0, init_xc, init_yc, hc2, hn, hv, hi,
      hx, hy, set_ncpl]
  unfold init
  rw [hiv0]
  cases l with
  | nil => simp [iverts_len_ok] at hlen
  | cons c rest =>
      by_cases hcl : c = ivs.length
      · have hgv : (init_m1 a).grid_varies_by_layer = .ok false := by
          rw [hm1]
          simp [grid_varies_by_layer, hcl]
        have hall : ((c :: rest).all fun cpl => cpl = ivs.length) = true := by
          have hh := hlen
          rw [iverts_len_ok, if_pos hcl] at hh
          exact hh
        have hncpl : (init_m1 a)._ncpl = some (c :: rest) := by rw [hm1]
        rw [hgv]
        simp only [hncpl]
        rw [if_pos hall, hm1]
      · have hgv : (init_m1 a).grid_varies_by_layer = .ok true := by
          rw [hm1]
          simp [grid_varies_by_layer, hcl]
        have hsum : (c :: rest).sum = ivs.length := by
          have hh := hlen
          rw [iverts_len_ok, if_neg hcl] at hh
          exact of_decide_eq_true hh
        have hnn : (init_m1 a).nnodes = some ivs.length := by
          rw [hm1]
          simp [nnodes, ncpl, hsum]
        rw [hgv]
        simp only []
        rw [if_pos hnn, hm1]

/-- C7: on a valid mesh whose vertex records have pairwise-distinct (x, y)
coordinates — with the constructor's length assertions holding and every cell
vertex id resolving in the vertex dict — `clean_iverts(inplace=False)`
returns a fresh mesh with identical cell geometry: resolving each cell's
vertex-id list yields the same coordinate sequence as in the original
(vertex ids may be renumbered), and centers, top, botm, ncpl, offsets and
rotation are preserved; the original mesh is left unchanged. -/
theorem C7_clean_iverts_roundtrip (m : UnstructuredGrid)
    (recs : List VertRec) (ivsRaw : List (List (Option ℤ))) (l : List ℕ)
    (hv : m._vertices = some recs) (hi : m._iverts = some ivsRaw)
    (hxs : m._xc.isSome = true) (hys : m._yc.isSome = true)
    (hn : m._ncpl = some l)
    (hnd : (recs.map (fun r => (r.2.1, r.2.2))).Nodup)
    (hwf : iverts_len_ok l ivsRaw.length = true)
    (hres : ∀ cell ∈ ivsRaw, ∀ v ∈ cell.filterMap id,
      (pyGet (vertexdict recs) v).isSome = true) :
    ∃ m', m.clean_iverts false = (some (.ok m'), m) ∧
      m'.cell_xyvertices = m.cell_xyvertices ∧
      m'._xc = m._xc ∧ m'._yc = m._yc ∧ m'._top = m._top ∧
      m'._botm = m._botm ∧ m'._ncpl = m._ncpl ∧
      m'._xoff = m._xoff ∧ m'._yoff = m._yoff ∧ m'._angrot = m._angrot ∧
      m'._iac = m._iac ∧ m'._ja = m._ja := by
  obtain ⟨xc, hxc⟩ := Option.isSome_iff_exists.mp hxs
  obtain ⟨yc, hyc⟩ := Option.isSome_iff_exists.mp hys
  have hiverts : m.iverts = some (ivsRaw.map (fun t => t.filterMap id)) := by
    simp [iverts, hi]
  have hvset : build_vset recs =
      recs.map (fun r => ((r.2.1, r.2.2), [r.1])) := by
    have hgo := build_vset_nodup_go recs [] (fun r _ => rfl) hnd
    simpa [build_vset] using hgo
  have hremap : build_remap (build_vset recs) =
      recs.foldl remapStep ([], [], 0) := by
    rw [hvset]
    exact build_remap_singles recs ([], [], 0)
  obtain ⟨inv1, inv2, inv3⟩ := clean_remap_invariant recs [] [] 0 []
    (fun v i h => by simp [pyGet] at h) (fun v => rfl) (fun v => rfl)
  obtain ⟨rows', hr1, hr2⟩ := resolve_remap_rows
    (recs.foldl remapStep ([], [], 0)).1
    (vertexdict (recs.foldl remapStep ([], [], 0)).2.1) (vertexdict recs)
    inv2 inv3 (ivsRaw.map (fun t => t.filterMap id))
    (by
      intro cell hc v hv'
      obtain ⟨raw, hraw, hrfl⟩ := List.mem_map.mp hc
      exact hres raw hraw v (hrfl ▸ hv'))
  have hlenrows : rows'.length = ivsRaw.length := by
    have hml := mapO_length _ _ rows' hr1
    simpa using hml
  have hstored : ∀ cell' : List ℕ,
      (cell'.map (fun n => some ((n : ℕ) : ℤ))).filterMap id =
        cell'.map (fun n => ((n : ℕ) : ℤ)) := by
    intro cell'
    induction cell' with
    | nil => rfl
    | cons n tail ih => simp [ih]
  have hinit := init_with_ncpl
    { vertices := some (recs.foldl remapStep ([], [], 0)).2.1,
      iverts := some (rows'.map (List.map (fun n => some ((n : ℕ) : ℤ)))),
      xcenters := some xc, ycenters := some yc, top := m._top,
      botm := m._botm, idomain := m._idomain, lenuni := m._lenuni,
      ncpl := (some l).map Sum.inr, crs := m._crs, prjfile := m._prjfile,
      xoff := m.xoffset, yoff := m.yoffset, angrot := m.angrot,
      iac := m._iac, ja := m._ja }
    (recs.foldl remapStep ([], [], 0)).2.1
    (rows'.map (List.map (fun n => some ((n : ℕ) : ℤ)))) xc yc l
    rfl rfl rfl rfl rfl rfl
    (by
      have hsl : (rows'.map (List.map (fun n => some ((n : ℕ) : ℤ)))).length =
          ivsRaw.length := by
        simp [hlenrows]
      rw [hsl]
      exact hwf)
  refine ⟨{
      _vertices := some (recs.foldl remapStep ([], [], 0)).2.1,
      _iverts := some (rows'.map (List.map (fun n => some ((n : ℕ) : ℤ)))),
      _xc := some xc, _yc := some yc, _top := m._top, _botm := m._botm,
      _ncpl := some l, _idomain := m._idomain, _lenuni := m._lenuni,
      _crs := m._crs, _prjfile := m._prjfile, _xoff := m.xoffset,
      _yoff := m.yoffset, _angrot := m.angrot, _iac := m._iac,
      _ja := m._ja }, ?_, ?_, ?_, ?_, ?_, ?_, ?_, ?_, ?_, ?_, ?_, ?_⟩
  · unfold clean_iverts
    simp only [hv, hiverts, hxc, hyc, hremap, hr1, hn, Bool.false_eq_true,
      if_false]
    rw [hinit]
  · show cell_xyvertices _ = cell_xyvertices m
    have hM2 : ((rows'.map (List.map (fun n => some ((n : ℕ) : ℤ)))).map
        (fun t => t.filterMap id)) =
        rows'.map (List.map (fun n => ((n : ℕ) : ℤ))) := by
      rw [List.map_map]
      exact List.map_congr_left (fun cell' _ => hstored cell')
    unfold cell_xyvertices
    simp only [iverts, hv, hi, Option.map_some', hM2]
    exact hr2
  · exact hxc.symm
  · exact hyc.symm
  · rfl
  · rfl
  · exact hn.symm
  · rfl
  · rfl
  · rfl
  · rfl
  · rfl

/-- C7 witness: the unit-square grid (distinct coordinates, distinct ids). -/
theorem C7_clean_iverts_roundtrip_witness :
    ∃ m', unitSquareGrid.clean_iverts false =
        (some (.ok m'), unitSquareGrid) ∧
      m'.cell_xyvertices = unitSquareGrid.cell_xyvertices ∧
      m'._xc = unitSquareGrid._xc ∧ m'._yc = unitSquareGrid._yc ∧
      m'._top = unitSquareGrid._top ∧ m'._botm = unitSquareGrid._botm ∧
      m'._ncpl = unitSquareGrid._ncpl ∧ m'._xoff = unitSquareGrid._xoff ∧
      m'._yoff = unitSquareGrid._yoff ∧ m'._angrot = unitSquareGrid._angrot ∧
      m'._iac = unitSquareGrid._iac ∧ m'._ja = unitSquareGrid._ja :=
  C7_clean_iverts_roundtrip unitSquareGrid
    [(0, 0, 0), (1, 1, 0), (2, 1, 1), (3, 0, 1)]
    [[some 0, some 1, some 2, some 3]] [1]
    rfl rfl rfl rfl rfl (by decide) rfl (by decide)

/-- C7 counterexample to the claim as stated: a valid grid with
pairwise-distinct vertex coordinates whose cell references a vertex id absent
from the vertex list — `clean_iverts(inplace=False)` raises KeyError instead
of returning a new mesh. -/
theorem C7_dangling_id_raises :
    danglingGrid.is_valid = true ∧
    ((danglingGrid._vertices.getD []).map (fun r => (r.2.1, r.2.2))).Nodup ∧
    danglingGrid.clean_iverts false =
      (some (.error "KeyError: vertex id not found"), danglingGrid) := by
  refine ⟨rfl, by simp [danglingGrid], rfl⟩

/-- C6 witness: an explicit construction without `ncpl`, and the derived
`nnodes`/`nlay` of the unit-square grid. -/
theorem C6_ncpl_invariants_witness :
    (∃ ivs, (init_m1 {
        vertices := some [(0, 0, 0), (1, 1, 0), (2, 1, 1), (3, 0, 1)],
        iverts := some [[some 0, some 1, some 2, some 3]],
        xcenters := some [1/2], ycenters := some [1/2] })._iverts =
          some ivs ∧
      (init_m1 {
        vertices := some [(0, 0, 0), (1, 1, 0), (2, 1, 1), (3, 0, 1)],
        iverts := some [[some 0, some 1, some 2, some 3]],
        xcenters := some [1/2], ycenters := some [1/2] })._ncpl =
          some [ivs.length]) ∧
    (unitSquareGrid.nnodes = some ([1] : List ℕ).sum ∧
      unitSquareGrid.nlay = some ([1] : List ℕ).length) :=
  ⟨C6_ncpl_invariants.1 {
      vertices := some [(0, 0, 0), (1, 1, 0), (2, 1, 1), (3, 0, 1)],
      iverts := some [[some 0, some 1, some 2, some 3]],
      xcenters := some [1/2], ycenters := some [1/2] }
    _ rfl rfl rfl,
    C6_ncpl_invariants.2 unitSquareGrid [1] rfl⟩

/-- C10: on a mesh that is not valid (at least one of vertices, iverts,
xcenters, ycenters missing), `clean_iverts` returns `None` for both
`inplace=True` and `inplace=False`, raises no error, and leaves the mesh
unchanged. -/
theorem C10_clean_invalid (m : UnstructuredGrid) (inplace : Bool)
    (h : m.is_valid = false) : m.clean_iverts inplace = (none, m) := by
  rcases m with ⟨v, iv, xc, yc, t, b, nc, idm, lu, crs, prj, xo, yo, an, iac, ja⟩
  cases v <;> cases iv <;> cases xc <;> cases yc <;>
    simp_all [clean_iverts, is_valid, iverts]

/-- C10 witness: the empty grid, with both `inplace` flags. -/
theorem C10_clean_invalid_witness :
    emptyGrid.clean_iverts true = (none, emptyGrid) ∧
    emptyGrid.clean_iverts false = (none, emptyGrid) :=
  ⟨C10_clean_invalid emptyGrid true rfl, C10_clean_invalid emptyGrid false rfl⟩

end Claims

end Flopy
